import Mathlib

/-!
Shallow embedding of the windowed trace/header access logic of
src/aura_gatherview.py (class AuraSEGYView).  Python integers are
modelled as Int.  The external SEG-Y reader (the auralib package) and
the Python text-to-number conversions are opaque collaborators of this
code and appear as function parameters of the embedded operations.
-/

namespace GatherView

/-- Byte width derived from a trace-header format code, as computed in
set_def_thead (src lines 371-385): codes l, f and ibm give 4 bytes, h
gives 2, s gives 1.  Any other code leaves the local nbyte variable
unassigned, and the Python function raises when the format dictionary
is built; that failure is modelled as none. -/
def nbyteOfFmt (fmt : String) : Option Int :=
  if fmt = "l" ∨ fmt = "f" ∨ fmt = "ibm" then some 4
  else if fmt = "h" then some 2
  else if fmt = "s" then some 1
  else none

/-- One trace-header field definition as stored in the def_thead
dictionary: byte position, format code, and derived byte count. -/
structure HeadDef where
  bpos : Int
  fmt : String
  nbyte : Int
deriving DecidableEq

/-- The def_thead structure built by set_def_thead (src lines 388-391). -/
structure DefThead where
  head1 : HeadDef
  head2 : HeadDef
deriving DecidableEq

/-- The observable pieces of an aura.segy.Segy buffer object: the file
it was opened on, the format definition it was constructed with, and
the head1/head2 value arrays populated by read_thead2. -/
structure SegyBuf where
  file : String
  dthead : DefThead
  thead1 : List Int
  thead2 : List Int
deriving DecidableEq

/-- The mutable fields of the AuraSEGYView frame that the windowing
logic touches: configuration scalars, the decoded trace matrix tdata,
the slider value (SetValue modelled as plain assignment), and the
text-control contents.  traceReloads and headerReloads are ghost
counters of the calls to the external range reads
read_multi_trace_data_new and read_thead2. -/
structure State where
  cur_trace : Int
  num_disp_traces : Int
  num_traces : Int
  gather_file : String
  head1_pos : Int
  head1_fmt : String
  head2_pos : Int
  head2_fmt : String
  amp_min : Rat
  amp_max : Rat
  def_thead : DefThead
  segybuf : Option SegyBuf
  tdata : List (List Int)
  slider : Int
  tcCurTrc : String
  tc1 : String
  tcAmpMin : String
  tcAmpMax : String
  tcH1Pos : String
  tcH1Fmt : String
  tcH2Pos : String
  tcH2Fmt : String
  traceReloads : Nat
  headerReloads : Nat
deriving DecidableEq

/-- Window arithmetic of getSegyTraces (src lines 296-304):
t0 = cur_trace - 1 and t1 = cur_trace + num_disp - 1, and when
t1 > num_traces the pair becomes (num_traces - num_disp, num_traces).
There is no clamp of t0 at 0 in the source. -/
def resolveWindow (num_traces cur_trace num_disp : Int) : Int × Int :=
  if cur_trace + num_disp - 1 > num_traces
  then (num_traces - num_disp, num_traces)
  else (cur_trace - 1, cur_trace + num_disp - 1)

/-- Window arithmetic of getSegyHeaders (src lines 333-338), textually
duplicated from getSegyTraces. -/
def resolveWindowHeaders (num_traces cur_trace num_disp : Int) : Int × Int :=
  if cur_trace + num_disp - 1 > num_traces
  then (num_traces - num_disp, num_traces)
  else (cur_trace - 1, cur_trace + num_disp - 1)

/-- The one-based start reported on the slider after resolution: the
shifted branch sets the slider to t0 + 1 (src line 305), and in the
unshifted branch t0 + 1 equals the requested start. -/
def resolvedStart (num_traces cur_trace num_disp : Int) : Int :=
  (resolveWindow num_traces cur_trace num_disp).1 + 1

/-- Resolved window of the current session state. -/
def windowOf (s : State) : Int × Int :=
  resolveWindow s.num_traces s.cur_trace s.num_disp_traces

/-- set_def_thead (src lines 363-391): read the four header text
controls, assign the format strings, parse the two byte positions,
derive the byte counts and rebuild def_thead.  A position parse
failure or an unknown format code aborts with the fields assigned so
far, mirroring the propagating Python exception; the flag records
normal completion. -/
def set_def_thead (intP : String → Option Int) (s : State) : State × Bool :=
  let sa := { s with head1_fmt := s.tcH1Fmt, head2_fmt := s.tcH2Fmt }
  match intP sa.tcH1Pos with
  | none => (sa, false)
  | some p1 =>
    let sb := { sa with head1_pos := p1 }
    match intP sb.tcH2Pos with
    | none => (sb, false)
    | some p2 =>
      let sc := { sb with head2_pos := p2 }
      match nbyteOfFmt sc.head1_fmt, nbyteOfFmt sc.head2_fmt with
      | some n1, some n2 =>
        ({ sc with def_thead :=
            ⟨⟨sc.head1_pos, sc.head1_fmt, n1⟩, ⟨sc.head2_pos, sc.head2_fmt, n2⟩⟩ }, true)
      | _, _ => (sc, false)

/-- Construction of aura.segy.Segy(gather_file, def_thead): an
external call that can fail (missing or unreadable file, modelled by
the segyOk oracle); on success it yields a fresh buffer for that file
and format definition with no header arrays read yet. -/
def mkSegy (segyOk : String → DefThead → Bool) (file : String) (d : DefThead) :
    Option SegyBuf :=
  if segyOk file d then some ⟨file, d, [], []⟩ else none

/-- getSegyHeaders (src lines 330-342): recompute the window, move the
slider when the window was shifted, and repopulate the head1/head2
arrays of the buffer through the external read_thead2 call.  With no
buffer present the attribute access raises, modelled by the flag. -/
def getSegyHeaders (readHead : String → DefThead → Int → Int → List Int × List Int)
    (s : State) : State × Bool :=
  let w := resolveWindowHeaders s.num_traces s.cur_trace s.num_disp_traces
  let s1 := if s.cur_trace + s.num_disp_traces - 1 > s.num_traces
            then { s with slider := w.1 + 1 } else s
  match s1.segybuf with
  | none => (s1, false)
  | some buf =>
    ({ s1 with
        segybuf := some { buf with
          thead1 := (readHead buf.file buf.dthead w.1 w.2).1,
          thead2 := (readHead buf.file buf.dthead w.1 w.2).2 },
        headerReloads := s1.headerReloads + 1 }, true)

/-- getSegyTraces (src lines 295-315): recompute the window, move the
slider when the window was shifted, and replace tdata with the trace
matrix returned by the external read_multi_trace_data_new call.  The
subsequent plot calls only render and leave the state unchanged. -/
def getSegyTraces (readTraces : String → Int → Int → List (List Int))
    (s : State) : State × Bool :=
  let w := resolveWindow s.num_traces s.cur_trace s.num_disp_traces
  let s1 := if s.cur_trace + s.num_disp_traces - 1 > s.num_traces
            then { s with slider := w.1 + 1 } else s
  match s1.segybuf with
  | none => (s1, false)
  | some buf =>
    ({ s1 with
        tdata := readTraces buf.file w.1 w.2,
        traceReloads := s1.traceReloads + 1 }, true)

/-- Horizontal extent used by plotSegyTraces for the image (src lines
319-320): from cur_trace to cur_trace + num_disp_traces. -/
def plotExtent (s : State) : Int × Int :=
  (s.cur_trace, s.cur_trace + s.num_disp_traces)

/-- onEnter (src lines 281-292): parse the text controls in program
order (current trace, displayed traces, amplitude bounds), rebuild
def_thead, delete and reconstruct the segy buffer, rebuild def_thead
again, then reread headers and traces.  A failing step aborts with
the assignments made so far, mirroring the propagating exception; in
particular del of an absent segybuf attribute raises, so with no
buffer present the handler aborts there. -/
def onEnter (intP : String → Option Int) (floatP : String → Option Rat)
    (readTraces : String → Int → Int → List (List Int))
    (readHead : String → DefThead → Int → Int → List Int × List Int)
    (segyOk : String → DefThead → Bool) (s : State) : State × Bool :=
  match intP s.tcCurTrc with
  | none => (s, false)
  | some c =>
    let sa := { s with cur_trace := c, slider := c }
    match intP sa.tc1 with
    | none => (sa, false)
    | some n =>
      let sb := { sa with num_disp_traces := n }
      match floatP sb.tcAmpMin with
      | none => (sb, false)
      | some amin =>
        let sc := { sb with amp_min := amin }
        match floatP sc.tcAmpMax with
        | none => (sc, false)
        | some amax =>
          let sd := { sc with amp_max := amax }
          match set_def_thead intP sd with
          | (se, false) => (se, false)
          | (se, true) =>
            match se.segybuf with
            | none => (se, false)
            | some _ =>
              let sf := { se with segybuf := none }
              match mkSegy segyOk sf.gather_file sf.def_thead with
              | none => (sf, false)
              | some buf =>
                let sg := { sf with segybuf := some buf }
                match set_def_thead intP sg with
                | (sh, false) => (sh, false)
                | (sh, true) =>
                  match getSegyHeaders readHead sh with
                  | (si, false) => (si, false)
                  | (si, true) => getSegyTraces readTraces si

/-- onScroll (src lines 270-278): the user drags the slider to v; the
handler copies the slider into cur_trace and its text control, parses
the displayed-traces box, rebuilds def_thead, reconstructs the segy
buffer and rereads headers and traces.  As in onEnter, del of an
absent segybuf attribute raises, aborting the handler there. -/
def onScroll (intP : String → Option Int)
    (readTraces : String → Int → Int → List (List Int))
    (readHead : String → DefThead → Int → Int → List Int × List Int)
    (segyOk : String → DefThead → Bool) (v : Int) (s : State) : State × Bool :=
  let sa := { s with slider := v, cur_trace := v, tcCurTrc := toString v }
  match intP sa.tc1 with
  | none => (sa, false)
  | some n =>
    let sb := { sa with num_disp_traces := n }
    match set_def_thead intP sb with
    | (sc, false) => (sc, false)
    | (sc, true) =>
      match sc.segybuf with
      | none => (sc, false)
      | some _ =>
        let sd := { sc with segybuf := none }
        match mkSegy segyOk sd.gather_file sd.def_thead with
        | none => (sd, false)
        | some buf =>
          let se := { sd with segybuf := some buf }
          match getSegyHeaders readHead se with
          | (sf, false) => (sf, false)
          | (sf, true) => getSegyTraces readTraces sf

/-- Erase the ghost reload counters, leaving the Python-observable
state. -/
def clearCounts (s : State) : State :=
  { s with traceReloads := 0, headerReloads := 0 }

/-- Concrete stand-in for the Python int() conversion, used only in
the closed runs below: defined on the numeric literals appearing in
them and failing on everything else, as int() fails on non-numeric
text. -/
def intP0 : String → Option Int := fun t =>
  if t = "1" then some 1
  else if t = "3" then some 3
  else if t = "5" then some 5
  else if t = "29" then some 29
  else if t = "37" then some 37
  else if t = "500" then some 500
  else if t = "800" then some 800
  else if t = "5000" then some 5000
  else if t = "-5000" then some (-5000)
  else none

/-- Concrete stand-in for the Python float() conversion on the two
amplitude literals used in the closed runs. -/
def floatP0 : String → Option Rat := fun t =>
  if t = "-5000" then some (-5000)
  else if t = "5000" then some 5000
  else none

/-- A concrete external trace read that records the requested range. -/
def readTraces0 : String → Int → Int → List (List Int) := fun _ a b => [[a, b]]

/-- A concrete external header read that records the requested range. -/
def readHead0 : String → DefThead → Int → Int → List Int × List Int :=
  fun _ _ a b => ([a], [b])

/-- External reader that always constructs successfully. -/
def segyOkT : String → DefThead → Bool := fun _ _ => true

/-- External reader whose construction always fails. -/
def segyOkF : String → DefThead → Bool := fun _ _ => false

/-- The default format definition (positions 29 and 37, codes h and
l), as in the init of AuraSEGYView. -/
def defThead0 : DefThead := ⟨⟨29, "h", 2⟩, ⟨37, "l", 4⟩⟩

/-- A loaded session on a 1000-trace file with the default
configuration, consistent text controls, and a trace buffer matching
readTraces0 over the resolved window (0, 500). -/
def s0 : State :=
  { cur_trace := 1, num_disp_traces := 500, num_traces := 1000,
    gather_file := "g.sgy",
    head1_pos := 29, head1_fmt := "h", head2_pos := 37, head2_fmt := "l",
    amp_min := -5000, amp_max := 5000,
    def_thead := defThead0,
    segybuf := some ⟨"g.sgy", defThead0, [], []⟩,
    tdata := [[0, 500]],
    slider := 1,
    tcCurTrc := "1", tc1 := "500", tcAmpMin := "-5000", tcAmpMax := "5000",
    tcH1Pos := "29", tcH1Fmt := "h", tcH2Pos := "37", tcH2Fmt := "l",
    traceReloads := 0, headerReloads := 0 }

/-- The default session with an unknown head1 format code. -/
def sBogus : State := { s0 with tcH1Fmt := "bogus" }

/-- C1 counterexample: on an empty file (total_traces = 0) with
requested_start = 1 and requested_width = 1, the getSegyTraces
resolution yields the window (-1, 0): t0 is negative, the window is
not the empty window (0, 0), and the width 1 is not min(1, 0) = 0. -/
theorem resolveWindow_no_clamp_cex :
    resolveWindow 0 1 1 = (-1, 0) ∧ (resolveWindow 0 1 1).1 < 0 ∧
      resolveWindow 0 1 1 ≠ (0, 0) := by decide

/-- C1 (amended): for total_traces ≥ 0, requested_start ≥ 1 and
requested_width ≥ 1 the getSegyTraces window resolution satisfies
0 ≤ t0 ≤ t1 ≤ total_traces and t1 - t0 = min(width, total) whenever
width ≤ total; when width > total there is no clamp to 0: the code
yields t0 = total - width, which is negative, with t1 = total. -/
theorem resolveWindow_bounds (total start width : Int)
    (h0 : 0 ≤ total) (h1 : 1 ≤ start) (h2 : 1 ≤ width) :
    (width ≤ total →
      0 ≤ (resolveWindow total start width).1 ∧
      (resolveWindow total start width).1 ≤ (resolveWindow total start width).2 ∧
      (resolveWindow total start width).2 ≤ total ∧
      (resolveWindow total start width).2 - (resolveWindow total start width).1
        = min width total) ∧
    (total < width →
      resolveWindow total start width = (total - width, total) ∧
      (resolveWindow total start width).1 < 0) := by
  unfold resolveWindow
  refine ⟨fun hw => ?_, fun hw => ?_⟩
  · rw [min_eq_left hw]
    split_ifs with h <;> dsimp only <;> exact ⟨by omega, by omega, by omega, by omega⟩
  · rw [if_pos (by omega)]
    exact ⟨rfl, by omega⟩

/-- Witness for C1 at total = 10, start = 2, width = 3. -/
theorem resolveWindow_bounds_witness :
    0 ≤ (resolveWindow 10 2 3).1 ∧
    (resolveWindow 10 2 3).1 ≤ (resolveWindow 10 2 3).2 ∧
    (resolveWindow 10 2 3).2 ≤ 10 ∧
    (resolveWindow 10 2 3).2 - (resolveWindow 10 2 3).1 = min 3 10 :=
  (resolveWindow_bounds 10 2 3 (by decide) (by decide) (by decide)).1 (by decide)

/-- C2: when the requested width fits (width ≤ total), the resolution
either returns the request exactly, with resolved start equal to the
requested start, or, when the requested end would pass the file end,
shifts the window left preserving the width, giving t0 = total -
width, t1 = total and resolved start total - width + 1. -/
theorem resolveWindow_exact_or_shift (total start width : Int)
    (h0 : 0 ≤ total) (h1 : 1 ≤ start) (h2 : 1 ≤ width) (h3 : width ≤ total) :
    (start - 1 + width ≤ total →
      resolveWindow total start width = (start - 1, start - 1 + width) ∧
      resolvedStart total start width = start) ∧
    (total < start - 1 + width →
      resolveWindow total start width = (total - width, total) ∧
      resolvedStart total start width = total - width + 1) := by
  unfold resolvedStart resolveWindow
  refine ⟨fun hle => ?_, fun hgt => ?_⟩
  · rw [if_neg (by omega)]
    have e : start + width - 1 = start - 1 + width := by omega
    rw [e]
    exact ⟨rfl, by dsimp only; omega⟩
  · rw [if_pos (by omega)]
    exact ⟨rfl, rfl⟩

/-- Witness for C2 at the documented example total = 1000, start =
800, width = 500: the window shifts to (500, 1000) and the resolved
start is 501. -/
theorem resolveWindow_exact_or_shift_witness :
    resolveWindow 1000 800 500 = (500, 1000) ∧ resolvedStart 1000 800 500 = 501 := by
  have h := (resolveWindow_exact_or_shift 1000 800 500
    (by decide) (by decide) (by decide) (by decide)).2 (by decide)
  exact ⟨h.1.trans (by decide), h.2.trans (by decide)⟩

/-- C10: the window clamp computations duplicated in getSegyHeaders
and getSegyTraces agree on every (num_traces, cur_trace,
num_disp_traces) triple, so the header read and the trace read of one
reconfiguration cover exactly the same trace range. -/
theorem headers_traces_same_window (num_traces cur ndisp : Int) :
    resolveWindowHeaders num_traces cur ndisp = resolveWindow num_traces cur ndisp := rfl

/-- C3: the byte widths derived by set_def_thead are 4 for codes l, f
and ibm, 2 for h and 1 for s, and on every successful rebuild the
byte count stored in def_thead is exactly the one derived from the
stored format code, for both head1 and head2 (never stored
independently). -/
theorem nbyte_derived_from_fmt :
    (nbyteOfFmt "l" = some 4 ∧ nbyteOfFmt "f" = some 4 ∧ nbyteOfFmt "ibm" = some 4 ∧
     nbyteOfFmt "h" = some 2 ∧ nbyteOfFmt "s" = some 1) ∧
    ∀ (intP : String → Option Int) (s : State),
      (set_def_thead intP s).2 = true →
      nbyteOfFmt (set_def_thead intP s).1.def_thead.head1.fmt
          = some (set_def_thead intP s).1.def_thead.head1.nbyte ∧
      nbyteOfFmt (set_def_thead intP s).1.def_thead.head2.fmt
          = some (set_def_thead intP s).1.def_thead.head2.nbyte := by
  refine ⟨by decide, ?_⟩
  intro intP s h
  simp only [set_def_thead] at h ⊢
  rcases hp1 : intP s.tcH1Pos with _ | p1
  · simp [hp1] at h
  · simp only [hp1] at h ⊢
    rcases hp2 : intP s.tcH2Pos with _ | p2
    · simp [hp2] at h
    · simp only [hp2] at h ⊢
      rcases hn1 : nbyteOfFmt s.tcH1Fmt with _ | n1
      · simp [hn1] at h
      · rcases hn2 : nbyteOfFmt s.tcH2Fmt with _ | n2
        · simp [hn1, hn2] at h
        · simp [hn1, hn2]

/-- Witness for C3: the default controls (positions 29 and 37, codes
h and l) rebuild def_thead successfully and the derived widths agree
with the stored format codes. -/
theorem nbyte_derived_from_fmt_witness :
    nbyteOfFmt (set_def_thead intP0 s0).1.def_thead.head1.fmt
        = some (set_def_thead intP0 s0).1.def_thead.head1.nbyte ∧
    nbyteOfFmt (set_def_thead intP0 s0).1.def_thead.head2.fmt
        = some (set_def_thead intP0 s0).1.def_thead.head2.nbyte :=
  nbyte_derived_from_fmt.2 intP0 s0 (by decide)

/-- C4: a format code outside the enumerated set, entered for either
header field, derives no byte width: the rebuild fails (the Python
unbound-local error propagates to the caller, modelled as the false
flag) and the previous def_thead is kept; no byte width is ever
silently defaulted. -/
theorem unknown_fmt_fails (fmt : String)
    (hl : fmt ≠ "l") (hf : fmt ≠ "f") (hibm : fmt ≠ "ibm")
    (hh : fmt ≠ "h") (hs : fmt ≠ "s") :
    nbyteOfFmt fmt = none ∧
    ∀ (intP : String → Option Int) (s : State),
      s.tcH1Fmt = fmt ∨ s.tcH2Fmt = fmt →
      (set_def_thead intP s).2 = false ∧
      (set_def_thead intP s).1.def_thead = s.def_thead := by
  have hnb : nbyteOfFmt fmt = none := by
    simp [nbyteOfFmt, hl, hf, hibm, hh, hs]
  refine ⟨hnb, ?_⟩
  intro intP s hfmt
  simp only [set_def_thead]
  rcases hp1 : intP s.tcH1Pos with _ | p1
  · simp [hp1]
  · rcases hp2 : intP s.tcH2Pos with _ | p2
    · simp [hp1, hp2]
    · rcases hfmt with hfmt | hfmt
      · rcases hn2 : nbyteOfFmt s.tcH2Fmt with _ | n2 <;>
          simp [hp1, hp2, hfmt, hnb, hn2]
      · rcases hn1 : nbyteOfFmt s.tcH1Fmt with _ | n1 <;>
          simp [hp1, hp2, hfmt, hnb, hn1]

/-- The default session with an unknown head2 format code. -/
def sBogus2 : State := { s0 with tcH2Fmt := "bogus" }

/-- Witness for C4 at the format code bogus, placed once in head1 and
once in head2 on the default session: both rebuilds fail and keep
def_thead unchanged. -/
theorem unknown_fmt_fails_witness :
    ((set_def_thead intP0 sBogus).2 = false ∧
      (set_def_thead intP0 sBogus).1.def_thead = sBogus.def_thead) ∧
    ((set_def_thead intP0 sBogus2).2 = false ∧
      (set_def_thead intP0 sBogus2).1.def_thead = sBogus2.def_thead) :=
  ⟨(unknown_fmt_fails "bogus" (by decide) (by decide) (by decide) (by decide) (by decide)).2
      intP0 sBogus (Or.inl rfl),
   (unknown_fmt_fails "bogus" (by decide) (by decide) (by decide) (by decide) (by decide)).2
      intP0 sBogus2 (Or.inr rfl)⟩

/-- Helper: a run of set_def_thead in which both positions parse and
both format codes are known. -/
theorem set_def_thead_run (intP : String → Option Int) (s : State) (p1 p2 n1 n2 : Int)
    (hp1 : intP s.tcH1Pos = some p1) (hp2 : intP s.tcH2Pos = some p2)
    (hn1 : nbyteOfFmt s.tcH1Fmt = some n1) (hn2 : nbyteOfFmt s.tcH2Fmt = some n2) :
    set_def_thead intP s =
      ({ s with head1_fmt := s.tcH1Fmt, head2_fmt := s.tcH2Fmt,
                head1_pos := p1, head2_pos := p2,
                def_thead := ⟨⟨p1, s.tcH1Fmt, n1⟩, ⟨p2, s.tcH2Fmt, n2⟩⟩ }, true) := by
  simp only [set_def_thead, hp1, hp2, hn1, hn2]

/-- Helper: a run of onEnter on a session holding a buffer, in which
every parse succeeds and the external reader constructs; it ends
having replaced every configuration scalar, rebuilt the buffer and
reread both ranges. -/
theorem onEnter_run (intP : String → Option Int) (floatP : String → Option Rat)
    (readTraces : String → Int → Int → List (List Int))
    (readHead : String → DefThead → Int → Int → List Int × List Int)
    (segyOk : String → DefThead → Bool) (s : State)
    (c n : Int) (amin amax : Rat) (p1 p2 n1 n2 : Int) (D : DefThead) (W : Int × Int)
    (b : SegyBuf) (hbuf : s.segybuf = some b)
    (hc : intP s.tcCurTrc = some c) (hn : intP s.tc1 = some n)
    (hmin : floatP s.tcAmpMin = some amin) (hmax : floatP s.tcAmpMax = some amax)
    (hp1 : intP s.tcH1Pos = some p1) (hp2 : intP s.tcH2Pos = some p2)
    (hn1 : nbyteOfFmt s.tcH1Fmt = some n1) (hn2 : nbyteOfFmt s.tcH2Fmt = some n2)
    (hD : D = ⟨⟨p1, s.tcH1Fmt, n1⟩, ⟨p2, s.tcH2Fmt, n2⟩⟩)
    (hok : segyOk s.gather_file D = true)
    (hW : W = resolveWindow s.num_traces c n) :
    onEnter intP floatP readTraces readHead segyOk s =
      ({ s with
          cur_trace := c, num_disp_traces := n, amp_min := amin, amp_max := amax,
          head1_fmt := s.tcH1Fmt, head2_fmt := s.tcH2Fmt,
          head1_pos := p1, head2_pos := p2,
          def_thead := D,
          segybuf := some ⟨s.gather_file, D,
            (readHead s.gather_file D W.1 W.2).1, (readHead s.gather_file D W.1 W.2).2⟩,
          tdata := readTraces s.gather_file W.1 W.2,
          slider := if c + n - 1 > s.num_traces then W.1 + 1 else c,
          traceReloads := s.traceReloads + 1,
          headerReloads := s.headerReloads + 1 }, true) := by
  subst hD hW
  by_cases hshift : c + n - 1 > s.num_traces <;>
    simp [onEnter, set_def_thead, mkSegy, getSegyHeaders, getSegyTraces,
          resolveWindowHeaders, resolveWindow,
          hbuf, hc, hn, hmin, hmax, hp1, hp2, hn1, hn2, hok, hshift]

/-- Helper: a run of onScroll on a session holding a buffer, in which
every parse succeeds and the external reader constructs. -/
theorem onScroll_run (intP : String → Option Int)
    (readTraces : String → Int → Int → List (List Int))
    (readHead : String → DefThead → Int → Int → List Int × List Int)
    (segyOk : String → DefThead → Bool) (v : Int) (s : State)
    (n p1 p2 n1 n2 : Int) (D : DefThead) (W : Int × Int)
    (b : SegyBuf) (hbuf : s.segybuf = some b)
    (hn : intP s.tc1 = some n)
    (hp1 : intP s.tcH1Pos = some p1) (hp2 : intP s.tcH2Pos = some p2)
    (hn1 : nbyteOfFmt s.tcH1Fmt = some n1) (hn2 : nbyteOfFmt s.tcH2Fmt = some n2)
    (hD : D = ⟨⟨p1, s.tcH1Fmt, n1⟩, ⟨p2, s.tcH2Fmt, n2⟩⟩)
    (hok : segyOk s.gather_file D = true)
    (hW : W = resolveWindow s.num_traces v n) :
    onScroll intP readTraces readHead segyOk v s =
      ({ s with
          cur_trace := v, tcCurTrc := toString v, num_disp_traces := n,
          head1_fmt := s.tcH1Fmt, head2_fmt := s.tcH2Fmt,
          head1_pos := p1, head2_pos := p2,
          def_thead := D,
          segybuf := some ⟨s.gather_file, D,
            (readHead s.gather_file D W.1 W.2).1, (readHead s.gather_file D W.1 W.2).2⟩,
          tdata := readTraces s.gather_file W.1 W.2,
          slider := if v + n - 1 > s.num_traces then W.1 + 1 else v,
          traceReloads := s.traceReloads + 1,
          headerReloads := s.headerReloads + 1 }, true) := by
  subst hD hW
  by_cases hshift : v + n - 1 > s.num_traces <;>
    simp [onScroll, set_def_thead, mkSegy, getSegyHeaders, getSegyTraces,
          resolveWindowHeaders, resolveWindow, hbuf, hn, hp1, hp2, hn1, hn2, hok, hshift]

/-- The default session with the head1 format changed to code l. -/
def sHdrChange : State := { s0 with tcH1Fmt := "l" }

/-- The default session with current trace text 5. -/
def s5 : State := { s0 with tcCurTrc := "5" }

/-- The default session with current trace text 5 and a non-numeric
displayed-traces text. -/
def s5bad : State := { s0 with tcCurTrc := "5", tc1 := "abc" }

/-- The default session with current trace text 800. -/
def s800 : State := { s0 with tcCurTrc := "800" }

/-- C5 counterexample: committing a header-format change (head1 code h
to l) runs onEnter, which re-issues the trace-range read: the ghost
trace-reload counter goes from 0 to 1, so the change does not reload
only the header buffer. -/
theorem header_change_reloads_traces_cex :
    (onEnter intP0 floatP0 readTraces0 readHead0 segyOkT sHdrChange).1.traceReloads = 1 ∧
    sHdrChange.traceReloads = 0 ∧
    (onEnter intP0 floatP0 readTraces0 readHead0 segyOkT sHdrChange).2 = true :=
  ⟨rfl, rfl, rfl⟩

/-- C5 (amended): a header-spec change committed through onEnter on a
session holding a buffer reloads both buffers, but when the other
controls are unchanged and the previous trace buffer was consistent
with the reader, the new trace buffer contents and the resolved
window equal their values from before the change, because the
external trace read does not depend on the header specs. -/
theorem header_change_preserves_trace_contents
    (intP : String → Option Int) (floatP : String → Option Rat)
    (readTraces : String → Int → Int → List (List Int))
    (readHead : String → DefThead → Int → Int → List Int × List Int)
    (segyOk : String → DefThead → Bool)
    (s : State) (F1 P1 F2 P2 : String) (p1 p2 n1 n2 : Int) (amin amax : Rat)
    (b : SegyBuf) (hbuf : s.segybuf = some b)
    (hc : intP s.tcCurTrc = some s.cur_trace)
    (hn : intP s.tc1 = some s.num_disp_traces)
    (hmin : floatP s.tcAmpMin = some amin)
    (hmax : floatP s.tcAmpMax = some amax)
    (hp1 : intP P1 = some p1) (hp2 : intP P2 = some p2)
    (hn1 : nbyteOfFmt F1 = some n1) (hn2 : nbyteOfFmt F2 = some n2)
    (hok : segyOk s.gather_file ⟨⟨p1, F1, n1⟩, ⟨p2, F2, n2⟩⟩ = true)
    (htd : s.tdata = readTraces s.gather_file (windowOf s).1 (windowOf s).2) :
    (onEnter intP floatP readTraces readHead segyOk
        { s with tcH1Fmt := F1, tcH1Pos := P1, tcH2Fmt := F2, tcH2Pos := P2 }).1.tdata
      = s.tdata ∧
    windowOf (onEnter intP floatP readTraces readHead segyOk
        { s with tcH1Fmt := F1, tcH1Pos := P1, tcH2Fmt := F2, tcH2Pos := P2 }).1
      = windowOf s ∧
    (onEnter intP floatP readTraces readHead segyOk
        { s with tcH1Fmt := F1, tcH1Pos := P1, tcH2Fmt := F2, tcH2Pos := P2 }).2 = true := by
  have h := onEnter_run intP floatP readTraces readHead segyOk
    { s with tcH1Fmt := F1, tcH1Pos := P1, tcH2Fmt := F2, tcH2Pos := P2 }
    s.cur_trace s.num_disp_traces amin amax p1 p2 n1 n2
    ⟨⟨p1, F1, n1⟩, ⟨p2, F2, n2⟩⟩
    (resolveWindow s.num_traces s.cur_trace s.num_disp_traces)
    b hbuf hc hn hmin hmax hp1 hp2 hn1 hn2 rfl hok rfl
  rw [h]
  exact ⟨htd.symm, rfl, rfl⟩

/-- Witness for C5: on the loaded default session, changing the head1
format code from h to l preserves the trace buffer contents and the
resolved window. -/
theorem header_change_preserves_trace_contents_witness :
    (onEnter intP0 floatP0 readTraces0 readHead0 segyOkT
        { s0 with tcH1Fmt := "l", tcH1Pos := "29", tcH2Fmt := "l", tcH2Pos := "37" }).1.tdata
      = s0.tdata ∧
    windowOf (onEnter intP0 floatP0 readTraces0 readHead0 segyOkT
        { s0 with tcH1Fmt := "l", tcH1Pos := "29", tcH2Fmt := "l", tcH2Pos := "37" }).1
      = windowOf s0 ∧
    (onEnter intP0 floatP0 readTraces0 readHead0 segyOkT
        { s0 with tcH1Fmt := "l", tcH1Pos := "29", tcH2Fmt := "l", tcH2Pos := "37" }).2 = true :=
  header_change_preserves_trace_contents intP0 floatP0 readTraces0 readHead0 segyOkT
    s0 "l" "29" "l" "37" 29 37 4 4 (-5000) 5000 ⟨"g.sgy", defThead0, [], []⟩
    rfl rfl rfl rfl rfl rfl rfl rfl rfl rfl rfl

/-- C6 counterexample: with the reader construction failing, onEnter
on the loaded default session with current trace text 5 still
overwrites cur_trace (1 becomes 5) and deletes the segy buffer, so the
previously committed state is not retained. -/
theorem reader_failure_not_noop_cex :
    (onEnter intP0 floatP0 readTraces0 readHead0 segyOkF s5).1.cur_trace = 5 ∧
    s5.cur_trace = 1 ∧
    (onEnter intP0 floatP0 readTraces0 readHead0 segyOkF s5).1.segybuf = none ∧
    s5.segybuf = some ⟨"g.sgy", defThead0, [], []⟩ ∧
    (onEnter intP0 floatP0 readTraces0 readHead0 segyOkF s5).2 = false :=
  ⟨rfl, rfl, rfl, rfl, rfl⟩

/-- C6 (amended): when the external reader construction fails during
onEnter (all parses having succeeded), the error propagates (false
flag) with the configuration scalars and def_thead already overwritten
by the new values and the segy buffer already deleted; only tdata and
the fields not yet assigned keep their prior values, so the failed
call is not a no-op on observable state. -/
theorem reader_failure_partial_state (intP : String → Option Int)
    (floatP : String → Option Rat)
    (readTraces : String → Int → Int → List (List Int))
    (readHead : String → DefThead → Int → Int → List Int × List Int)
    (segyOk : String → DefThead → Bool) (s : State)
    (c n : Int) (amin amax : Rat) (p1 p2 n1 n2 : Int) (D : DefThead)
    (hc : intP s.tcCurTrc = some c) (hn : intP s.tc1 = some n)
    (hmin : floatP s.tcAmpMin = some amin) (hmax : floatP s.tcAmpMax = some amax)
    (hp1 : intP s.tcH1Pos = some p1) (hp2 : intP s.tcH2Pos = some p2)
    (hn1 : nbyteOfFmt s.tcH1Fmt = some n1) (hn2 : nbyteOfFmt s.tcH2Fmt = some n2)
    (hD : D = ⟨⟨p1, s.tcH1Fmt, n1⟩, ⟨p2, s.tcH2Fmt, n2⟩⟩)
    (hfail : segyOk s.gather_file D = false) :
    onEnter intP floatP readTraces readHead segyOk s =
      ({ s with
          cur_trace := c, slider := c, num_disp_traces := n,
          amp_min := amin, amp_max := amax,
          head1_fmt := s.tcH1Fmt, head2_fmt := s.tcH2Fmt,
          head1_pos := p1, head2_pos := p2, def_thead := D,
          segybuf := none }, false) := by
  subst hD
  rcases hbuf : s.segybuf with _ | b <;>
    simp [onEnter, set_def_thead, mkSegy, hbuf,
          hc, hn, hmin, hmax, hp1, hp2, hn1, hn2, hfail]

/-- Witness for C6: the failing-reader run on the concrete session,
showing the torn state it ends in. -/
theorem reader_failure_partial_state_witness :
    onEnter intP0 floatP0 readTraces0 readHead0 segyOkF s5 =
      ({ s5 with
          cur_trace := 5, slider := 5, num_disp_traces := 500,
          amp_min := -5000, amp_max := 5000,
          head1_fmt := "h", head2_fmt := "l",
          head1_pos := 29, head2_pos := 37, def_thead := defThead0,
          segybuf := none }, false) :=
  reader_failure_partial_state intP0 floatP0 readTraces0 readHead0 segyOkF s5
    5 500 (-5000) 5000 29 37 2 4 defThead0
    rfl rfl rfl rfl rfl rfl rfl rfl rfl rfl

/-- C7 counterexample: two consecutive onScroll calls with the same
slider value 3 on the loaded default session resolve to the same
window, yet the ghost trace-reload counter reaches 2: each call issues
its own reload, not one in total. -/
theorem set_window_twice_two_reloads_cex :
    (onScroll intP0 readTraces0 readHead0 segyOkT 3
        (onScroll intP0 readTraces0 readHead0 segyOkT 3 s0).1).1.traceReloads = 2 ∧
    (onScroll intP0 readTraces0 readHead0 segyOkT 3 s0).1.traceReloads = 1 ∧
    windowOf (onScroll intP0 readTraces0 readHead0 segyOkT 3
        (onScroll intP0 readTraces0 readHead0 segyOkT 3 s0).1).1
      = windowOf (onScroll intP0 readTraces0 readHead0 segyOkT 3 s0).1 :=
  ⟨rfl, rfl, rfl⟩

/-- C7 (amended): onScroll repeated with the same slider value on a
session holding a buffer leaves the Python-observable state unchanged
(the second call is idempotent on state content), but each call
performs its own invalidation and reload: both ghost counters advance
again on the second call. -/
theorem scroll_repeat_single_effect (intP : String → Option Int)
    (readTraces : String → Int → Int → List (List Int))
    (readHead : String → DefThead → Int → Int → List Int × List Int)
    (segyOk : String → DefThead → Bool) (v : Int) (s : State)
    (n p1 p2 n1 n2 : Int)
    (b : SegyBuf) (hbuf : s.segybuf = some b)
    (hn : intP s.tc1 = some n)
    (hp1 : intP s.tcH1Pos = some p1) (hp2 : intP s.tcH2Pos = some p2)
    (hn1 : nbyteOfFmt s.tcH1Fmt = some n1) (hn2 : nbyteOfFmt s.tcH2Fmt = some n2)
    (hok : segyOk s.gather_file ⟨⟨p1, s.tcH1Fmt, n1⟩, ⟨p2, s.tcH2Fmt, n2⟩⟩ = true) :
    clearCounts (onScroll intP readTraces readHead segyOk v
        (onScroll intP readTraces readHead segyOk v s).1).1
      = clearCounts (onScroll intP readTraces readHead segyOk v s).1 ∧
    (onScroll intP readTraces readHead segyOk v
        (onScroll intP readTraces readHead segyOk v s).1).1.traceReloads
      = (onScroll intP readTraces readHead segyOk v s).1.traceReloads + 1 ∧
    (onScroll intP readTraces readHead segyOk v
        (onScroll intP readTraces readHead segyOk v s).1).1.headerReloads
      = (onScroll intP readTraces readHead segyOk v s).1.headerReloads + 1 := by
  have h1 := onScroll_run intP readTraces readHead segyOk v s n p1 p2 n1 n2
    ⟨⟨p1, s.tcH1Fmt, n1⟩, ⟨p2, s.tcH2Fmt, n2⟩⟩
    (resolveWindow s.num_traces v n) b hbuf hn hp1 hp2 hn1 hn2 rfl hok rfl
  have h2 := onScroll_run intP readTraces readHead segyOk v
    (onScroll intP readTraces readHead segyOk v s).1 n p1 p2 n1 n2
    ⟨⟨p1, s.tcH1Fmt, n1⟩, ⟨p2, s.tcH2Fmt, n2⟩⟩
    (resolveWindow s.num_traces v n)
    ⟨s.gather_file, ⟨⟨p1, s.tcH1Fmt, n1⟩, ⟨p2, s.tcH2Fmt, n2⟩⟩,
      (readHead s.gather_file ⟨⟨p1, s.tcH1Fmt, n1⟩, ⟨p2, s.tcH2Fmt, n2⟩⟩
        (resolveWindow s.num_traces v n).1 (resolveWindow s.num_traces v n).2).1,
      (readHead s.gather_file ⟨⟨p1, s.tcH1Fmt, n1⟩, ⟨p2, s.tcH2Fmt, n2⟩⟩
        (resolveWindow s.num_traces v n).1 (resolveWindow s.num_traces v n).2).2⟩
    (by rw [h1])
    (by rw [h1]; exact hn) (by rw [h1]; exact hp1) (by rw [h1]; exact hp2)
    (by rw [h1]; exact hn1) (by rw [h1]; exact hn2)
    (by rw [h1]) (by rw [h1]; exact hok) (by rw [h1])
  rw [h2, h1]
  exact ⟨rfl, rfl, rfl⟩

/-- Witness for C7 at slider value 3 on the loaded default session. -/
theorem scroll_repeat_single_effect_witness :
    clearCounts (onScroll intP0 readTraces0 readHead0 segyOkT 3
        (onScroll intP0 readTraces0 readHead0 segyOkT 3 s0).1).1
      = clearCounts (onScroll intP0 readTraces0 readHead0 segyOkT 3 s0).1 ∧
    (onScroll intP0 readTraces0 readHead0 segyOkT 3
        (onScroll intP0 readTraces0 readHead0 segyOkT 3 s0).1).1.traceReloads
      = (onScroll intP0 readTraces0 readHead0 segyOkT 3 s0).1.traceReloads + 1 ∧
    (onScroll intP0 readTraces0 readHead0 segyOkT 3
        (onScroll intP0 readTraces0 readHead0 segyOkT 3 s0).1).1.headerReloads
      = (onScroll intP0 readTraces0 readHead0 segyOkT 3 s0).1.headerReloads + 1 :=
  scroll_repeat_single_effect intP0 readTraces0 readHead0 segyOkT 3 s0
    500 29 37 2 4 ⟨"g.sgy", defThead0, [], []⟩ rfl rfl rfl rfl rfl rfl rfl

/-- C8 counterexample: with current trace text 5 and non-numeric
displayed-traces text, onEnter fails the second parse but has already
overwritten cur_trace (1 becomes 5): the prior value is not retained
for every field. -/
theorem parse_failure_partial_update_cex :
    (onEnter intP0 floatP0 readTraces0 readHead0 segyOkT s5bad).1.cur_trace = 5 ∧
    s5bad.cur_trace = 1 ∧
    (onEnter intP0 floatP0 readTraces0 readHead0 segyOkT s5bad).2 = false :=
  ⟨rfl, rfl, rfl⟩

/-- C8 (amended): whichever text control fails to parse, the onEnter
run aborts with exactly the fields whose statements ran before the
failure already applied and every later field keeping its prior
value: a current-trace failure applies nothing; a displayed-traces
failure has already applied cur_trace and the slider; an amplitude
failure additionally the displayed-trace count (and for the maximum
also the minimum); a header-position failure additionally the two
format strings (and for the second position also the first parsed
position). -/
theorem parse_failure_prefix_applied (intP : String → Option Int)
    (floatP : String → Option Rat)
    (readTraces : String → Int → Int → List (List Int))
    (readHead : String → DefThead → Int → Int → List Int × List Int)
    (segyOk : String → DefThead → Bool) (s : State) :
    (intP s.tcCurTrc = none →
      onEnter intP floatP readTraces readHead segyOk s = (s, false)) ∧
    (∀ c : Int, intP s.tcCurTrc = some c → intP s.tc1 = none →
      onEnter intP floatP readTraces readHead segyOk s
        = ({ s with cur_trace := c, slider := c }, false)) ∧
    (∀ (c n : Int), intP s.tcCurTrc = some c → intP s.tc1 = some n →
      floatP s.tcAmpMin = none →
      onEnter intP floatP readTraces readHead segyOk s
        = ({ s with cur_trace := c, slider := c, num_disp_traces := n }, false)) ∧
    (∀ (c n : Int) (amin : Rat), intP s.tcCurTrc = some c → intP s.tc1 = some n →
      floatP s.tcAmpMin = some amin → floatP s.tcAmpMax = none →
      onEnter intP floatP readTraces readHead segyOk s
        = ({ s with
              cur_trace := c, slider := c, num_disp_traces := n,
              amp_min := amin }, false)) ∧
    (∀ (c n : Int) (amin amax : Rat), intP s.tcCurTrc = some c → intP s.tc1 = some n →
      floatP s.tcAmpMin = some amin → floatP s.tcAmpMax = some amax →
      intP s.tcH1Pos = none →
      onEnter intP floatP readTraces readHead segyOk s
        = ({ s with
              cur_trace := c, slider := c, num_disp_traces := n,
              amp_min := amin, amp_max := amax,
              head1_fmt := s.tcH1Fmt, head2_fmt := s.tcH2Fmt }, false)) ∧
    (∀ (c n : Int) (amin amax : Rat) (p1 : Int),
      intP s.tcCurTrc = some c → intP s.tc1 = some n →
      floatP s.tcAmpMin = some amin → floatP s.tcAmpMax = some amax →
      intP s.tcH1Pos = some p1 → intP s.tcH2Pos = none →
      onEnter intP floatP readTraces readHead segyOk s
        = ({ s with
              cur_trace := c, slider := c, num_disp_traces := n,
              amp_min := amin, amp_max := amax,
              head1_fmt := s.tcH1Fmt, head2_fmt := s.tcH2Fmt,
              head1_pos := p1 }, false)) := by
  refine ⟨?_, ?_, ?_, ?_, ?_, ?_⟩
  · intro h1
    simp [onEnter, h1]
  · intro c h1 h2
    simp [onEnter, h1, h2]
  · intro c n h1 h2 h3
    simp [onEnter, h1, h2, h3]
  · intro c n amin h1 h2 h3 h4
    simp [onEnter, h1, h2, h3, h4]
  · intro c n amin amax h1 h2 h3 h4 h5
    simp [onEnter, set_def_thead, h1, h2, h3, h4, h5]
  · intro c n amin amax p1 h1 h2 h3 h4 h5 h6
    simp [onEnter, set_def_thead, h1, h2, h3, h4, h5, h6]

/-- The default session with current trace text 5 and a non-numeric
minimum-amplitude text. -/
def s5amp : State := { s0 with tcCurTrc := "5", tcAmpMin := "zzz" }

/-- Witness for C8 on two concrete sessions: a displayed-traces parse
failure with the current trace already applied, and a
minimum-amplitude parse failure with the current trace and
displayed-trace count already applied. -/
theorem parse_failure_prefix_applied_witness :
    (onEnter intP0 floatP0 readTraces0 readHead0 segyOkT s5bad
      = ({ s5bad with cur_trace := 5, slider := 5 }, false)) ∧
    (onEnter intP0 floatP0 readTraces0 readHead0 segyOkT s5amp
      = ({ s5amp with cur_trace := 5, slider := 5, num_disp_traces := 500 }, false)) :=
  ⟨(parse_failure_prefix_applied intP0 floatP0 readTraces0 readHead0 segyOkT s5bad).2.1
      5 rfl rfl,
   (parse_failure_prefix_applied intP0 floatP0 readTraces0 readHead0 segyOkT s5amp).2.2.1
      5 500 rfl rfl rfl⟩

/-- C9 (code bug): entering current trace 800 with 500 displayed
traces on a 1000-trace file shifts the window to (500, 1000); the
slider is moved to the resolved start 501, but cur_trace keeps the raw
request 800, and the plot extent is labelled 800 to 1300 although the
data read covers rows 500 to 1000 (resolved start 501): the redisplay
is not the canonical post-resolution value. -/
theorem shifted_window_display_mismatch :
    (onEnter intP0 floatP0 readTraces0 readHead0 segyOkT s800).1.slider = 501 ∧
    (onEnter intP0 floatP0 readTraces0 readHead0 segyOkT s800).1.cur_trace = 800 ∧
    plotExtent (onEnter intP0 floatP0 readTraces0 readHead0 segyOkT s800).1 = (800, 1300) ∧
    (onEnter intP0 floatP0 readTraces0 readHead0 segyOkT s800).1.tdata = [[500, 1000]] :=
  ⟨rfl, rfl, rfl, rfl⟩

end GatherView
